import Mathlib

/-!
Shallow embedding of the data-normalization / filtering / aggregation core of
the fleets-reporting dashboard (React + TypeScript sources under src/).

Modelling conventions:
* A spreadsheet cell is a `Value`: a string, a number (modelled as a rational,
  since the sheet's financial columns are declared `number` in types.ts), a
  valid `Date` (stored as its calendar components: year, 0-based month index,
  day of month), an invalid `Date`, or `undefined` (which also stands for JS
  `null`; the sources only ever test the two together via `??` / `!= null`).
* A canonical row is a total function from column name to `Value`; a raw
  (pre-normalization) worker row is an ordered association list, because the
  key-trimming step's last-writer-wins behaviour depends on key order.
* JS `||`, `??` and truthiness are modelled explicitly (`jsOr`, `jsNullish`,
  `truthy`).  `NaN` numbers do not arise in the model: the only `NaN`
  producers in the sources are invalid dates, modelled by `Value.invalidDate`.
* `String(v)` is modelled by `jsString`.  For integer numbers, `undefined` and
  invalid dates this agrees with JS exactly; for valid dates and non-integer
  numbers only the properties the sources rely on are preserved (the result is
  non-empty and does not start with a digit / is never one of the month
  abbreviations), which is all any call site inspects.
-/

/-! ### String primitives

Lean's built-in `String.trim` / `String.toUpper` … are implemented through
`Substring` machinery that the kernel cannot evaluate, so the JS string
methods used by the sources are modelled directly on the character list. -/

/-- JS `s.trim()`. -/
def myTrim (s : String) : String :=
  String.mk (((s.data.dropWhile Char.isWhitespace).reverse.dropWhile Char.isWhitespace).reverse)

/-- JS `s.toUpperCase()`. -/
def myToUpper (s : String) : String := String.mk (s.data.map Char.toUpper)

/-- JS `s.toLowerCase()`. -/
def myToLower (s : String) : String := String.mk (s.data.map Char.toLower)

/-- JS `s.substring(0, n)`. -/
def myTake (s : String) (n : Nat) : String := String.mk (s.data.take n)

def leadsWith : List Char → List Char → Bool
  | [], _ => true
  | _ :: _, [] => false
  | a :: as, b :: bs => a == b && leadsWith as bs

def containsSeq : List Char → List Char → Bool
  | [], pat => pat.isEmpty
  | c :: t, pat => leadsWith pat (c :: t) || containsSeq t pat

/-- JS `s.includes(sub)`. -/
def jsIncludes (s sub : String) : Bool := containsSeq s.data sub.data

/-- Code-point comparison of strings: the order used by JS `Array.sort()`'s
default string comparator (the sheets' option values are ASCII, where
UTF-16 code-unit order and code-point order agree). -/
def charListLt : List Char → List Char → Bool
  | [], [] => false
  | [], _ :: _ => true
  | _ :: _, [] => false
  | a :: as, b :: bs =>
    if a.toNat < b.toNat then true
    else if b.toNat < a.toNat then false
    else charListLt as bs

def strLt (a b : String) : Bool := charListLt a.data b.data

/-! ### Cell values -/

inductive Value where
  | str (s : String)
  | num (q : ℚ)
  | dateV (y : Int) (m : Nat) (d : Nat)
  | invalidDate
  | undef
deriving DecidableEq, Repr

abbrev Row := String → Value

/-- Build a row from a literal list of (column, value) pairs (first match wins;
literals below never repeat a key). Absent columns are `undefined`. -/
def Row.ofList (l : List (String × Value)) : Row := fun k =>
  match l.find? (fun p => p.1 == k) with
  | some p => p.2
  | none => Value.undef

/-- JS truthiness of a cell value ("" and 0 are falsy, objects are truthy). -/
def truthy : Value → Bool
  | Value.str s => s ≠ ""
  | Value.num q => q ≠ 0
  | Value.dateV _ _ _ => true
  | Value.invalidDate => true
  | Value.undef => false

/-- JS `a ?? b` (nullish coalescing). -/
def jsNullish (a b : Value) : Value :=
  match a with
  | Value.undef => b
  | v => v

/-- JS `a || b` (first truthy wins). -/
def jsOr (a b : Value) : Value :=
  if truthy a then a else b

/-- The numeric content of a cell, used after a `|| 0` / `?? 0` guard.
Financial columns are declared `number` in types.ts; a non-numeric cell in a
numeric position is outside the model and reads as 0. -/
def qOf : Value → ℚ
  | Value.num q => q
  | _ => 0

/-- JS `String(v)`. Exact for strings, integers, `undefined` and invalid
dates; for valid dates and non-integer rationals a stand-in is produced (see
the header comment). -/
def jsString : Value → String
  | Value.str s => s
  | Value.num q => if q.den = 1 then toString q.num else "NonIntegerNumber"
  | Value.dateV y m d => "DateObject " ++ toString y ++ " " ++ toString m ++ " " ++ toString d
  | Value.invalidDate => "Invalid Date"
  | Value.undef => "undefined"

def MONTH_NAMES : List String :=
  ["JAN", "FEB", "MAR", "APR", "MAY", "JUN", "JUL", "AUG", "SEP", "OCT", "NOV", "DEC"]

/-- `MONTH_NAMES.indexOf s`, as an `Option` (JS returns -1 on failure and the
sources always compare with `> -1`). -/
def monthIdx (s : String) : Option Nat :=
  MONTH_NAMES.indexOf? s

def digitsToNat (cs : List Char) : Nat :=
  cs.foldl (fun n c => 10 * n + (c.toNat - 48)) 0

def parseDigits (cs : List Char) : Option Nat :=
  let ds := cs.takeWhile Char.isDigit
  if ds.isEmpty then none else some (digitsToNat ds)

/-- JS `parseInt(s, 10)`: skip leading whitespace, optional sign, read leading
decimal digits, `NaN` (here `none`) if there are none. -/
def parseIntJS (s : String) : Option Int :=
  match (myTrim s).data with
  | '-' :: rest => (parseDigits rest).map (fun n => -(n : Int))
  | '+' :: rest => (parseDigits rest).map (fun n => (n : Int))
  | cs => (parseDigits cs).map (fun n => (n : Int))

/-- Truncation of a rational toward zero (what `parseInt(String(n))` yields
for a finite JS number `n` in the ranges the sheets use). -/
def ratTrunc (q : ℚ) : Int :=
  if 0 ≤ q then Int.floor q else -(Int.floor (-q))

/-- `parseInt(String(v), 10)` for a cell value. Date objects stringify to text
starting with a letter, hence `NaN`. -/
def jsParseIntValue : Value → Option Int
  | Value.str s => parseIntJS s
  | Value.num q => some (ratTrunc q)
  | Value.dateV _ _ _ => none
  | Value.invalidDate => none
  | Value.undef => none

/-- `Date.UTC` maps year arguments 0..99 to 1900..1999. -/
def utcYearAdjust (y : Int) : Int :=
  if 0 ≤ y ∧ y ≤ 99 then y + 1900 else y

/-! ### Option-list construction

The views build each dropdown's option list as
`['All', ...Array.from(set).sort()]`: the distinct collected values, sorted
ascending, with `"All"` pinned first.  `sortStr` models the default string
sort; `optionsOf` models the whole construction. -/

def insStr (a : String) : List String → List String
  | [] => [a]
  | b :: l => if strLt b a then b :: insStr a l else a :: b :: l

def sortStr : List String → List String
  | [] => []
  | a :: l => insStr a (sortStr l)

def optionsOf (vals : List String) : List String :=
  "All" :: sortStr vals.dedup

/-- Collect the distinct raw values of a field over a row list, in encounter
order, keeping only truthy cells and stringifying them — the
`rows.forEach(item => { if (f(item)) set.add(String(f(item))) })` pattern. -/
def collectWith (g : Row → Value) (rows : List Row) : List String :=
  rows.filterMap (fun item => if truthy (g item) then some (jsString (g item)) else none)

theorem mem_insStr (x a : String) (l : List String) :
    x ∈ insStr a l ↔ x = a ∨ x ∈ l := by
  induction l with
  | nil => simp [insStr]
  | cons b t ih =>
    simp only [insStr]
    by_cases hb : strLt b a = true
    · rw [if_pos hb]
      simp only [List.mem_cons, ih]
      try tauto
    · rw [if_neg hb]
      simp only [List.mem_cons]
      try tauto

theorem mem_sortStr (x : String) (l : List String) :
    x ∈ sortStr l ↔ x ∈ l := by
  induction l with
  | nil => simp [sortStr]
  | cons a t ih => simp [sortStr, mem_insStr, ih]

theorem mem_optionsOf (x : String) (vals : List String) :
    x ∈ optionsOf vals ↔ x = "All" ∨ x ∈ vals := by
  simp [optionsOf, mem_sortStr, List.mem_dedup]

theorem collectWith_mono (g : Row → Value) {l1 l2 : List Row} (h : l1 ⊆ l2)
    {x : String} (hx : x ∈ collectWith g l1) : x ∈ collectWith g l2 := by
  simp only [collectWith, List.mem_filterMap] at hx ⊢
  obtain ⟨a, ha, hga⟩ := hx
  exact ⟨a, h ha, hga⟩

/-! ### Date Resolver — `getItemDate` (src/components/Dashboard.tsx) -/

/-- The first valid `Date` among the date-valued columns `getItemDate`
checks, in source order: `'End Date'`, `'Month'`, `'DATE'`, `'Date:'`
(a cell matches only when it is a `Date` object with a non-NaN time). -/
def primaryDate (item : Row) : Option (Int × Nat × Nat) :=
  match item "End Date" with
  | Value.dateV y m d => some (y, m, d)
  | _ =>
    match item "Month" with
    | Value.dateV y m d => some (y, m, d)
    | _ =>
      match item "DATE" with
      | Value.dateV y m d => some (y, m, d)
      | _ =>
        match item "Date:" with
        | Value.dateV y m d => some (y, m, d)
        | _ => none

/-- `getItemDate(item)`: the `(year, 0-based month index, day)` components of
the `Date` it returns, or `none` for `null`.  Fallback branch: month text from
`item['MONTH'] ?? item['Month']` (must be string-typed), year from
`item['YEAR'] ?? item['Year']` (must be non-nullish), coerced with
`parseInt(String(year), 10)`; the month is matched by
`MONTH_NAMES_ABBR.indexOf(String(m).toUpperCase().substring(0, 3))`; the
result is `new Date(Date.UTC(yearNum, monthIndex, 15))` — note `Date.UTC`'s
mapping of year arguments 0..99 to 1900..1999. -/
def getItemDate (item : Row) : Option (Int × Nat × Nat) :=
  match primaryDate item with
  | some r => some r
  | none =>
    match jsNullish (item "MONTH") (item "Month") with
    | Value.str s =>
      if jsNullish (item "YEAR") (item "Year") = Value.undef then none
      else
        match jsParseIntValue (jsNullish (item "YEAR") (item "Year")) with
        | some yearNum =>
          match monthIdx (myTake (myToUpper s) 3) with
          | some mi => some (utcYearAdjust yearNum, mi, 15)
          | none => none
        | none => none
    | _ => none

/-- The (month abbreviation, year) pair the Dashboard derives from
`getItemDate`'s result, via `MONTH_NAMES_ABBR[d.getUTCMonth()]` and
`d.getUTCFullYear()`. -/
def getItemDateMY (item : Row) : Option (String × Int) :=
  (getItemDate item).map (fun t => (MONTH_NAMES.getD t.2.1 "", t.1))

/-- Date resolution as the spec states it: (1) a valid primary date column
wins, month/year from its UTC components; (2) else, with a string month and a
non-null year present, the month is the case-insensitive 3-letter uppercase
prefix matched against the 12 abbreviations and the year is the numeric
coercion of the year value, null if either is invalid; (3) else null. -/
def specResolveDate (item : Row) : Option (String × Int) :=
  match primaryDate item with
  | some (y, m, _) => some (MONTH_NAMES.getD m "", y)
  | none =>
    match jsNullish (item "MONTH") (item "Month") with
    | Value.str s =>
      if jsNullish (item "YEAR") (item "Year") = Value.undef then none
      else
        match monthIdx (myTake (myToUpper s) 3),
              jsParseIntValue (jsNullish (item "YEAR") (item "Year")) with
        | some mi, some yr => some (MONTH_NAMES.getD mi "", yr)
        | _, _ => none
    | _ => none

/-- The spec's resolution rule amended by the one divergence the code forces:
a coerced year in 0..99 is mapped to 1900..1999 (JS `Date.UTC` semantics). -/
def specResolveDateAdj (item : Row) : Option (String × Int) :=
  match primaryDate item with
  | some (y, m, _) => some (MONTH_NAMES.getD m "", y)
  | none =>
    match jsNullish (item "MONTH") (item "Month") with
    | Value.str s =>
      if jsNullish (item "YEAR") (item "Year") = Value.undef then none
      else
        match monthIdx (myTake (myToUpper s) 3),
              jsParseIntValue (jsNullish (item "YEAR") (item "Year")) with
        | some mi, some yr => some (MONTH_NAMES.getD mi "", utcYearAdjust yr)
        | _, _ => none
    | _ => none

/-- Claim C3, counterexample: with `MONTH = "Jan"` and `YEAR = "24"`, the code
resolves the year to 1924 (the `Date.UTC` two-digit-year mapping), while the
claim's "numeric coercion of the year value" gives 24 — so the claim as
stated fails on this row. -/
theorem getItemDate_two_digit_year_cex :
    getItemDateMY (Row.ofList [("MONTH", Value.str "Jan"), ("YEAR", Value.str "24")])
      = some ("JAN", 1924) ∧
    specResolveDate (Row.ofList [("MONTH", Value.str "Jan"), ("YEAR", Value.str "24")])
      = some ("JAN", 24) ∧
    getItemDateMY (Row.ofList [("MONTH", Value.str "Jan"), ("YEAR", Value.str "24")])
      ≠ specResolveDate (Row.ofList [("MONTH", Value.str "Jan"), ("YEAR", Value.str "24")]) := by
  refine ⟨by decide, by decide, by decide⟩

/-- Claim C3 (amended): for every row, `getItemDate`'s (month, year) result
follows the spec's priority order exactly — (1) first valid designated
date-valued column wins with its UTC components, (2) else string-month /
non-null-year fallback with 3-letter-uppercase-prefix month match and numeric
year coercion, null if either is invalid, (3) else null — with the single
amendment that a coerced year in 0..99 denotes 1900..1999. -/
theorem getItemDate_matches_spec :
    ∀ item : Row, getItemDateMY item = specResolveDateAdj item := by
  intro item
  unfold getItemDateMY getItemDate specResolveDateAdj
  cases hp : primaryDate item with
  | some r => obtain ⟨y, m, d⟩ := r; rfl
  | none =>
    cases hm : jsNullish (item "MONTH") (item "Month") <;> try rfl
    case str s =>
    dsimp only
    by_cases hy : jsNullish (item "YEAR") (item "Year") = Value.undef
    · rw [if_pos hy, if_pos hy]
      rfl
    · rw [if_neg hy, if_neg hy]
      cases hpi : jsParseIntValue (jsNullish (item "YEAR") (item "Year")) <;>
        cases hmi : monthIdx (myTake (myToUpper s) 3) <;> rfl

/-! ### Field accessors (src/components/Dashboard.tsx / DriverOperatorView.tsx) -/

/-- `getBusinessUnit(item)`: the `??`-chain over the five aliased business
unit columns, in source order. -/
def getBusinessUnit (item : Row) : Value :=
  jsNullish (item "BUSINESS UNITS")
    (jsNullish (item "Business Units")
      (jsNullish (item "BUSINESS UNIT")
        (jsNullish (item "Business Unit") (item "Client Company Name"))))

/-- `getDesignation(item) = item.DESIGNATION ?? item.Designation`. -/
def getDesignation (item : Row) : Value :=
  jsNullish (item "DESIGNATION") (item "Designation")

/-- Summation pattern `rows.reduce((sum, i) => sum + g(i), 0)`. -/
def sumBy (g : Row → ℚ) (rows : List Row) : ℚ := (rows.map g).sum

/-! ### Driver & Operator view (src/components/DriverOperatorView.tsx)

Its local filter state: Month, Year, 'Business Units', Designation, plus the
free-text SAP-number search filter (passed separately below, as in the
source, where it is a distinct `useState`). -/

structure DuoFilters where
  month : String
  year : String
  bu : String
  desig : String
deriving DecidableEq, Repr

/-- `item.Month ? String(item.Month).toUpperCase().substring(0,3)
: getMonthNameFromDate(item['End Date'])`. -/
def duoItemMonthName (item : Row) : Option String :=
  if truthy (item "Month") then some (myTake (myToUpper (jsString (item "Month"))) 3)
  else
    match item "End Date" with
    | Value.dateV _ m _ => some (MONTH_NAMES.getD m "")
    | _ => none

/-- `item.Year ? String(item.Year) : String(getYearFromDate(item['End Date'])
|| '')` — note that `null || ''` and `0 || ''` both yield the empty string. -/
def duoItemYear (item : Row) : String :=
  if truthy (item "Year") then jsString (item "Year")
  else
    match item "End Date" with
    | Value.dateV y _ _ => if y = 0 then "" else toString y
    | _ => ""

def duoMonthMatch (f : DuoFilters) (item : Row) : Bool :=
  f.month == "All" ||
    (match duoItemMonthName item with
     | some m => m != "" && m == f.month
     | none => false)

def duoYearMatch (f : DuoFilters) (item : Row) : Bool :=
  f.year == "All" || (duoItemYear item != "" && duoItemYear item == f.year)

/-- `const sapNo = item['SAP NO.'] ?? item['SAP NO:']; !lowercasedSapFilter ||
String(sapNo).toLowerCase().includes(lowercasedSapFilter)` where
`lowercasedSapFilter = sapFilter.toLowerCase().trim()`. -/
def duoSapMatch (sap : String) (item : Row) : Bool :=
  let lowered := myTrim (myToLower sap)
  lowered == "" ||
    jsIncludes (myToLower (jsString (jsNullish (item "SAP NO.") (item "SAP NO:")))) lowered

/-- The `baseFilteredData` of `dynamicOptions`: month, year and SAP search
applied; the two dropdown dimensions are not. -/
def duoBaseFiltered (rows : List Row) (f : DuoFilters) (sap : String) : List Row :=
  rows.filter (fun item => duoMonthMatch f item && duoYearMatch f item && duoSapMatch sap item)

def duoDesigMatch (f : DuoFilters) (item : Row) : Bool :=
  f.desig == "All" || getDesignation item == Value.str f.desig

def duoBuMatch (f : DuoFilters) (item : Row) : Bool :=
  f.bu == "All" || jsString (getBusinessUnit item) == f.bu

/-- The business-unit option set before the current selection is re-appended:
`['All', ...Array.from(businessUnitsSet).sort()]` over `baseFilteredData`
narrowed by the Designation dimension. -/
def duoBusinessUnitsBase (rows : List Row) (f : DuoFilters) (sap : String) : List String :=
  optionsOf (collectWith getBusinessUnit ((duoBaseFiltered rows f sap).filter (duoDesigMatch f)))

/-- The designation option set before the current selection is re-appended:
over `baseFilteredData` narrowed by the Business Units dimension. -/
def duoDesignationsBase (rows : List Row) (f : DuoFilters) (sap : String) : List String :=
  optionsOf (collectWith getDesignation ((duoBaseFiltered rows f sap).filter (duoBuMatch f)))

/-- The `(a,b) => a === 'All' ? -1 : b === 'All' ? 1 : a.localeCompare(b)`
re-sort applied after pushing a missing current selection: every `"All"`
first, the rest ascending. -/
def sortAllFirst (l : List String) : List String :=
  l.filter (fun x => x == "All") ++ sortStr (l.filter (fun x => !(x == "All")))

/-- The business-unit option list the view renders: the computed set, with
the current selection pushed and re-sorted if it is absent
(DriverOperatorView.tsx lines 157-160). -/
def duoBusinessUnits (rows : List Row) (f : DuoFilters) (sap : String) : List String :=
  let base := duoBusinessUnitsBase rows f sap
  if f.bu != "All" && !(base.contains f.bu) then sortAllFirst (base ++ [f.bu]) else base

/-- The designation option list the view renders (lines 172-175). -/
def duoDesignations (rows : List Row) (f : DuoFilters) (sap : String) : List String :=
  let base := duoDesignationsBase rows f sap
  if f.desig != "All" && !(base.contains f.desig) then sortAllFirst (base ++ [f.desig]) else base

/-- `filteredData` (DriverOperatorView.tsx lines 195-216). -/
def duoFilteredData (rows : List Row) (f : DuoFilters) (sap : String) : List Row :=
  rows.filter (fun item =>
    duoMonthMatch f item && duoYearMatch f item && duoBuMatch f item &&
      duoSapMatch sap item && duoDesigMatch f item)

/-- `summaryData.totalRevenue = filteredData.reduce((acc, item) => acc +
(item.Revenue ?? 0), 0)`. -/
def duoTotalRevenue (rows : List Row) (f : DuoFilters) (sap : String) : ℚ :=
  sumBy (fun i => qOf (jsNullish (i "Revenue") (Value.num 0))) (duoFilteredData rows f sap)

def duoTotalExpense (rows : List Row) (f : DuoFilters) (sap : String) : ℚ :=
  sumBy (fun i => qOf (jsNullish (i "Expense") (Value.num 0))) (duoFilteredData rows f sap)

def duoTotalProfit (rows : List Row) (f : DuoFilters) (sap : String) : ℚ :=
  sumBy (fun i => qOf (jsNullish (i "Profit") (Value.num 0))) (duoFilteredData rows f sap)

/-! ### Scenario fixtures -/

def rowScenA1 : Row := Row.ofList
  [("Month", Value.str "JAN"), ("Year", Value.str "2024"),
   ("Revenue", Value.num 100), ("Expense", Value.num 40)]

def rowScenA2 : Row := Row.ofList
  [("Month", Value.str "FEB"), ("Year", Value.str "2024"),
   ("Revenue", Value.num 50), ("Expense", Value.num 10)]

def filtScenA : DuoFilters := { month := "JAN", year := "2024", bu := "All", desig := "All" }

/-- Claim C7, counterexample: on Scenario A's two rows with the month-JAN /
year-2024 filter, the filtered subset has length 1 and total revenue 100 as
claimed, but the aggregated total profit is 0, not 60: the rows carry no
`Profit` column and `summaryData` sums `item.Profit ?? 0`; profit is never
derived as revenue − expense. -/
theorem scenarioA_profit_cex :
    (duoFilteredData [rowScenA1, rowScenA2] filtScenA "").length = 1 ∧
    duoTotalRevenue [rowScenA1, rowScenA2] filtScenA "" = 100 ∧
    duoTotalProfit [rowScenA1, rowScenA2] filtScenA "" ≠ 60 := by
  refine ⟨rfl, ?_, ?_⟩
  · show (100 : ℚ) + 0 = 100
    norm_num
  · show (0 : ℚ) + 0 ≠ 60
    norm_num

/-- Claim C7 (amended): Scenario A as the code computes it — the filtered
subset has length 1, the aggregate total revenue is 100, the aggregate total
expense is 40, and the aggregate total profit is 0 (no `Profit` column is
present and the view does not derive profit from revenue and expense). -/
theorem scenarioA_amended :
    (duoFilteredData [rowScenA1, rowScenA2] filtScenA "").length = 1 ∧
    duoTotalRevenue [rowScenA1, rowScenA2] filtScenA "" = 100 ∧
    duoTotalExpense [rowScenA1, rowScenA2] filtScenA "" = 40 ∧
    duoTotalProfit [rowScenA1, rowScenA2] filtScenA "" = 0 := by
  refine ⟨rfl, ?_, ?_, ?_⟩
  · show (100 : ℚ) + 0 = 100
    norm_num
  · show (40 : ℚ) + 0 = 40
    norm_num
  · show (0 : ℚ) + 0 = 0
    norm_num

def rowBUA : Row := Row.ofList [("BUSINESS UNITS", Value.str "A")]

/-- Claim C1, counterexample: in the Driver & Operator view, two filter states
that agree on every dimension except the business-unit selection itself
("All" versus the stale value "Z") yield different business-unit option
lists, because the view appends the current selection to its own option list
when it is absent — so a dimension's option list is not a function of the
other dimensions only. -/
theorem duo_options_depend_on_own_selection_cex :
    duoBusinessUnits [rowBUA] { month := "All", year := "All", bu := "All", desig := "All" } ""
      = ["All", "A"] ∧
    duoBusinessUnits [rowBUA] { month := "All", year := "All", bu := "Z", desig := "All" } ""
      = ["All", "A", "Z"] ∧
    duoBusinessUnits [rowBUA] { month := "All", year := "All", bu := "All", desig := "All" } ""
      ≠ duoBusinessUnits [rowBUA] { month := "All", year := "All", bu := "Z", desig := "All" } "" := by
  refine ⟨rfl, rfl, by decide⟩

/-! ### Job Card view (src/components/JobCardView.tsx) -/

structure JcFilters where
  month : String
  year : String
  bu : String
  cluster : String
deriving DecidableEq, Repr

/-- `String(item.Month || '').toUpperCase().substring(0,3)`. -/
def jcItemMonthName (item : Row) : String :=
  myTake (myToUpper (jsString (jsOr (item "Month") (Value.str "")))) 3

/-- `String(item.Year || '')`. -/
def jcItemYear (item : Row) : String :=
  jsString (jsOr (item "Year") (Value.str ""))

def jcMonthMatch (f : JcFilters) (item : Row) : Bool :=
  f.month == "All" || jcItemMonthName item == f.month

def jcYearMatch (f : JcFilters) (item : Row) : Bool :=
  f.year == "All" || jcItemYear item == f.year

/-- `const searchKey = item['Reg / Fleet No:'] ?? item['Plate #']`;
`!lowercasedSearchFilter || String(searchKey).toLowerCase().includes(...)`. -/
def jcSearchMatch (search : String) (item : Row) : Bool :=
  let lowered := myTrim (myToLower search)
  lowered == "" ||
    jsIncludes (myToLower (jsString (jsNullish (item "Reg / Fleet No:") (item "Plate #")))) lowered

/-- `baseFilteredData` of `dynamicOptions`: date and search filters only. -/
def jcBaseFiltered (rows : List Row) (f : JcFilters) (search : String) : List Row :=
  rows.filter (fun item => jcMonthMatch f item && jcYearMatch f item && jcSearchMatch search item)

def jcClusterMatch (f : JcFilters) (item : Row) : Bool :=
  f.cluster == "All" || jsString (item "Cluster") == f.cluster

def jcBuMatch (f : JcFilters) (item : Row) : Bool :=
  f.bu == "All" || jsString (item "Business Units") == f.bu

/-- Business-unit options: base data further narrowed by the Cluster
dimension (never by the business-unit dimension itself). -/
def jcBusinessUnits (rows : List Row) (f : JcFilters) (search : String) : List String :=
  optionsOf (collectWith (fun i => i "Business Units")
    ((jcBaseFiltered rows f search).filter (jcClusterMatch f)))

/-- Cluster options: base data further narrowed by the Business Unit
dimension. -/
def jcClusters (rows : List Row) (f : JcFilters) (search : String) : List String :=
  optionsOf (collectWith (fun i => i "Cluster")
    ((jcBaseFiltered rows f search).filter (jcBuMatch f)))

/-- `filteredData` (JobCardView.tsx lines 118-136). -/
def jcFilteredData (rows : List Row) (f : JcFilters) (search : String) : List Row :=
  rows.filter (fun item =>
    jcMonthMatch f item && jcYearMatch f item && jcBuMatch f item &&
      jcSearchMatch search item && jcClusterMatch f item)

/-- `totalAmount = Σ (item['Total amount with Service Charge'] ||
item['Total Amount w%'] || 0)`. -/
def jcTotalAmount (rows : List Row) (f : JcFilters) (search : String) : ℚ :=
  sumBy (fun i => qOf (jsOr (i "Total amount with Service Charge")
    (jsOr (i "Total Amount w%") (Value.num 0)))) (jcFilteredData rows f search)

def jcRecordCount (rows : List Row) (f : JcFilters) (search : String) : Nat :=
  (jcFilteredData rows f search).length

/-- `averageAmount = recordCount > 0 ? totalAmount / recordCount : 0`. -/
def jcAverageAmount (rows : List Row) (f : JcFilters) (search : String) : ℚ :=
  if 0 < jcRecordCount rows f search then
    jcTotalAmount rows f search / (jcRecordCount rows f search : ℚ)
  else 0

/-- The two stale-selection reset effects of JobCardView.tsx (lines 106-116),
applied against one settled render's option lists. -/
def jcResetStep (rows : List Row) (f : JcFilters) (search : String) : JcFilters :=
  { f with
    bu := if f.bu != "All" && !((jcBusinessUnits rows f search).contains f.bu)
          then "All" else f.bu,
    cluster := if f.cluster != "All" && !((jcClusters rows f search).contains f.cluster)
               then "All" else f.cluster }

/-! ### Internal Fleets view (src/components/InternalFleetsView.tsx) -/

structure IfFilters where
  month : String
  year : String
  bu : String
  fcat : String
deriving DecidableEq, Repr

/-- The shared `internalType` filter pushed down from the Dashboard. -/
inductive IType where
  | all
  | rental
  | fuel
deriving DecidableEq, Repr

/-- `String((item as any)['MONTH'] || '').toUpperCase().substring(0,3)`. -/
def ifItemMonthName (item : Row) : String :=
  myTake (myToUpper (jsString (jsOr (item "MONTH") (Value.str "")))) 3

/-- `String((item as any)['YEAR'] || '')`. -/
def ifItemYear (item : Row) : String :=
  jsString (jsOr (item "YEAR") (Value.str ""))

def ifMonthMatch (f : IfFilters) (item : Row) : Bool :=
  f.month == "All" || ifItemMonthName item == f.month

def ifYearMatch (f : IfFilters) (item : Row) : Bool :=
  f.year == "All" || ifItemYear item == f.year

def ifSearchMatch (search : String) (item : Row) : Bool :=
  let lowered := myTrim (myToLower search)
  lowered == "" || jsIncludes (myToLower (jsString (item "Reg No:"))) lowered

def ifBaseFiltered (rows : List Row) (f : IfFilters) (search : String) : List Row :=
  rows.filter (fun item => ifMonthMatch f item && ifYearMatch f item && ifSearchMatch search item)

def ifFcatMatch (f : IfFilters) (item : Row) : Bool :=
  f.fcat == "All" || jsString (item "Fleet_Category") == f.fcat

def ifBuMatch (f : IfFilters) (item : Row) : Bool :=
  f.bu == "All" || jsString (item "Business Units") == f.bu

def ifBusinessUnits (rows : List Row) (f : IfFilters) (search : String) : List String :=
  optionsOf (collectWith (fun i => i "Business Units")
    ((ifBaseFiltered rows f search).filter (ifFcatMatch f)))

def ifFleetCategories (rows : List Row) (f : IfFilters) (search : String) : List String :=
  optionsOf (collectWith (fun i => i "Fleet_Category")
    ((ifBaseFiltered rows f search).filter (ifBuMatch f)))

/-- `internalTypeMatch`: Rental requires `(item['R-Revenue'] ?? 0) > 0`, Fuel
requires `(item['F-Revenue'] ?? 0) > 0`, All accepts everything. -/
def ifTypeMatch (t : IType) (item : Row) : Bool :=
  match t with
  | IType.rental => decide (0 < qOf (jsNullish (item "R-Revenue") (Value.num 0)))
  | IType.fuel => decide (0 < qOf (jsNullish (item "F-Revenue") (Value.num 0)))
  | IType.all => true

/-- `filteredData` (InternalFleetsView.tsx lines 122-155). -/
def ifFilteredData (rows : List Row) (f : IfFilters) (search : String) (t : IType) : List Row :=
  rows.filter (fun item =>
    ifMonthMatch f item && ifYearMatch f item && ifBuMatch f item &&
      ifSearchMatch search item && ifFcatMatch f item && ifTypeMatch t item)

/-- `totalAmount = Σ ((item['F-Revenue'] || 0) + (item['R-Revenue'] || 0))`. -/
def ifTotalAmount (rows : List Row) (f : IfFilters) (search : String) (t : IType) : ℚ :=
  sumBy (fun i => qOf (jsOr (i "F-Revenue") (Value.num 0)) + qOf (jsOr (i "R-Revenue") (Value.num 0)))
    (ifFilteredData rows f search t)

def ifRecordCount (rows : List Row) (f : IfFilters) (search : String) (t : IType) : Nat :=
  (ifFilteredData rows f search t).length

/-- `averageAmount = recordCount > 0 ? totalAmount / recordCount : 0`. -/
def ifAverageAmount (rows : List Row) (f : IfFilters) (search : String) (t : IType) : ℚ :=
  if 0 < ifRecordCount rows f search t then
    ifTotalAmount rows f search t / (ifRecordCount rows f search t : ℚ)
  else 0

/-- The two stale-selection reset effects of InternalFleetsView.tsx
(lines 109-120). -/
def ifResetStep (rows : List Row) (f : IfFilters) (search : String) : IfFilters :=
  { f with
    bu := if f.bu != "All" && !((ifBusinessUnits rows f search).contains f.bu)
          then "All" else f.bu,
    fcat := if f.fcat != "All" && !((ifFleetCategories rows f search).contains f.fcat)
            then "All" else f.fcat }

/-! ### Fleet Management view (src/components/FleetManagement.tsx) -/

structure FmFilters where
  month : String
  year : String
  bu : String
deriving DecidableEq, Repr

/-- `getMonthName(item.Month)`: the month abbreviation of a valid `Date` in
the `Month` column, else null. -/
def fmMonthName (item : Row) : Option String :=
  match item "Month" with
  | Value.dateV _ m _ => some (MONTH_NAMES.getD m "")
  | _ => none

/-- `String(getYear(item.Month))` — JS stringifies the null failure case to
`"null"`. -/
def fmYearStr (item : Row) : String :=
  match item "Month" with
  | Value.dateV y _ _ => toString y
  | _ => "null"

def fmMonthMatch (f : FmFilters) (item : Row) : Bool :=
  f.month == "All" ||
    (match fmMonthName item with
     | some m => m == f.month
     | none => false)

def fmYearMatch (f : FmFilters) (item : Row) : Bool :=
  f.year == "All" || fmYearStr item == f.year

def fmBuMatch (f : FmFilters) (item : Row) : Bool :=
  f.bu == "All" || jsString (item "Business Units") == f.bu

/-- `filteredData` (FleetManagement.tsx lines 121-134). -/
def fmFilteredData (rows : List Row) (f : FmFilters) : List Row :=
  rows.filter (fun item => fmMonthMatch f item && fmYearMatch f item && fmBuMatch f item)

/-- `dynamicOptions.businessUnits`: date-filtered data only (FleetManagement
has a single dropdown dimension). -/
def fmDynamicBusinessUnits (rows : List Row) (f : FmFilters) : List String :=
  optionsOf (collectWith (fun i => i "Business Units")
    (rows.filter (fun item => fmMonthMatch f item && fmYearMatch f item)))

/-- The stale-selection reset effect of FleetManagement.tsx (lines 115-119). -/
def fmResetStep (rows : List Row) (f : FmFilters) : FmFilters :=
  { f with
    bu := if f.bu != "All" && !((fmDynamicBusinessUnits rows f).contains f.bu)
          then "All" else f.bu }

/-- `item['Splited Amount'] || 0`. -/
def splitedAmt (i : Row) : ℚ := qOf (jsOr (i "Splited Amount") (Value.num 0))

/-- `summaryData.totalAmount` of the Fleet Management view. -/
def fmTotalAmount (rows : List Row) (f : FmFilters) : ℚ :=
  sumBy splitedAmt (fmFilteredData rows f)

/-- The month-only (business-unit-ignored) subset used as the percentage
denominator basis in the view (FleetManagement.tsx lines 148-154). -/
def fmMonthOnlyRows (rows : List Row) (f : FmFilters) : List Row :=
  rows.filter (fun item =>
    (match fmMonthName item with
     | some m => m == f.month
     | none => false) && fmYearMatch f item)

def fmTotalMonthAmount (rows : List Row) (f : FmFilters) : ℚ :=
  sumBy splitedAmt (fmMonthOnlyRows rows f)

/-- The view's percentage: only computed inside `filters.Month !== 'All'`,
and only when `filters['Business Units'] !== 'All' && totalMonthAmount > 0`
(FleetManagement.tsx lines 140-161); otherwise it stays 0. -/
def fmViewPercentage (rows : List Row) (f : FmFilters) : ℚ :=
  if f.month ≠ "All" then
    (if f.bu ≠ "All" ∧ 0 < fmTotalMonthAmount rows f then
       fmTotalAmount rows f / fmTotalMonthAmount rows f * 100
     else 0)
  else 0

/-! ### Dashboard (src/components/Dashboard.tsx) -/

/-- The shared top-level filter triple the Dashboard's metrics read. -/
structure SharedF where
  month : String
  year : String
  bu : String
deriving DecidableEq, Repr

/-- `filterByBUAndDate` (Dashboard.tsx lines 126-144): business unit first
(strict equality against the alias-resolved value), then an early accept when
both date dimensions are "All", then date resolution via `getItemDate`. -/
def filterByBUAndDate (f : SharedF) (item : Row) : Bool :=
  (f.bu == "All" || getBusinessUnit item == Value.str f.bu) &&
    (if f.month == "All" && f.year == "All" then true
     else
       match getItemDate item with
       | none => false
       | some (y, m, _) =>
         (f.month == "All" || MONTH_NAMES.getD m "" == f.month) &&
           (f.year == "All" || toString y == f.year))

/-- `filterJobCardByBUAndDate` (Dashboard.tsx lines 148-165): the Job Card
sheet's dedicated string Month/Year columns only. -/
def filterJobCardByBUAndDate (f : SharedF) (item : Row) : Bool :=
  (f.bu == "All" || getBusinessUnit item == Value.str f.bu) &&
    (if f.month == "All" && f.year == "All" then true
     else
       if jcItemMonthName item == "" || jcItemYear item == "" then false
       else
         (f.month == "All" || jcItemMonthName item == f.month) &&
           (f.year == "All" || jcItemYear item == f.year))

/-- `jobCardRevenue`: Σ over the filtered Job Card rows of
`(i['Total amount with Service Charge'] || i['TOTAL AMOUNT WITH SERVICE
CHARGE'] || 0)`. -/
def dashJobCardRevenue (rows : List Row) (f : SharedF) : ℚ :=
  sumBy (fun i => qOf (jsOr (i "Total amount with Service Charge")
      (jsOr (i "TOTAL AMOUNT WITH SERVICE CHARGE") (Value.num 0))))
    (rows.filter (filterJobCardByBUAndDate f))

/-- `jobCardProfit = Σ (i.Profit || 0)`. -/
def dashJobCardProfit (rows : List Row) (f : SharedF) : ℚ :=
  sumBy (fun i => qOf (jsOr (i "Profit") (Value.num 0)))
    (rows.filter (filterJobCardByBUAndDate f))

/-- `jobCardCost = jobCardRevenue - jobCardProfit` (Dashboard.tsx line 185). -/
def dashJobCardCost (rows : List Row) (f : SharedF) : ℚ :=
  dashJobCardRevenue rows f - dashJobCardProfit rows f

/-- `fleetManagementRevenue = Σ (i['Splited Amount'] || 0)` over the filtered
Fleet Management rows. -/
def dashFmRevenue (rows : List Row) (f : SharedF) : ℚ :=
  sumBy splitedAmt (rows.filter (filterByBUAndDate f))

/-- `monthFilteredDataForPercentage` (Dashboard.tsx lines 201-209): month
must match (no "All" escape — this branch only runs with a specific month),
year matches unless "All"; the business unit is ignored. -/
def dashFmMonthRows (rows : List Row) (f : SharedF) : List Row :=
  rows.filter (fun item =>
    match getItemDate item with
    | none => false
    | some (y, m, _) =>
      MONTH_NAMES.getD m "" == f.month && (f.year == "All" || toString y == f.year))

def dashFmMonthTotal (rows : List Row) (f : SharedF) : ℚ :=
  sumBy splitedAmt (dashFmMonthRows rows f)

/-- `fleetManagementPercentage` (Dashboard.tsx lines 198-215): stays 0 unless
a specific month and business unit are selected and `totalMonthAmount > 0`. -/
def fleetManagementPercentage (rows : List Row) (f : SharedF) : ℚ :=
  if f.month ≠ "All" ∧ f.bu ≠ "All" then
    (if 0 < dashFmMonthTotal rows f then
       dashFmRevenue rows f / dashFmMonthTotal rows f * 100
     else 0)
  else 0

/-- The external-fleet rows the Dashboard metrics use. -/
def dashExternalFiltered (rows : List Row) (f : SharedF) : List Row :=
  rows.filter (filterByBUAndDate f)

/-- `counts.externalInvoice = new Set(filtered.external.map(i =>
i['Invoice Number:'])).size` — every distinct value of the field counts,
including `undefined` for rows missing it. -/
def dashInvoiceCount (rows : List Row) (f : SharedF) : Nat :=
  ((dashExternalFiltered rows f).map (fun i => i "Invoice Number:")).dedup.length

/-- A blank invoice key in the sense of the spec: null/undefined or an
empty/whitespace-only string. -/
def isBlankKey (v : Value) : Bool :=
  match v with
  | Value.undef => true
  | Value.str s => myTrim s == ""
  | _ => false

/-- The unique-invoice count as the spec states it: distinct invoice-number
values among the filtered external rows, with blank keys ignored. -/
def specInvoiceCount (rows : List Row) (f : SharedF) : Nat :=
  (((dashExternalFiltered rows f).map (fun i => i "Invoice Number:")).filter
    (fun v => !(isBlankKey v))).dedup.length

/-- The number of distinct blank key values present among the filtered
external rows (each distinct blank value — e.g. `undefined`, `""` — counts
once). -/
def blankInvoiceKinds (rows : List Row) (f : SharedF) : Nat :=
  ((((dashExternalFiltered rows f).map (fun i => i "Invoice Number:")).dedup).filter
    isBlankKey).length

/-! ### Helper lemmas -/

/-- Overwrite one column of a row (used to state that a metric never reads a
given column). -/
def setField (k : String) (v : Value) (r : Row) : Row :=
  fun k2 => if k2 == k then v else r k2

theorem sumBy_filter_map_invariant (rows : List Row) (upd : Row → Row) (p : Row → Bool)
    (g : Row → ℚ) (hp : ∀ r, p (upd r) = p r) (hg : ∀ r, g (upd r) = g r) :
    sumBy g ((rows.map upd).filter p) = sumBy g (rows.filter p) := by
  rw [List.filter_map]
  unfold sumBy
  rw [List.map_map]
  have h1 : rows.filter (p ∘ upd) = rows.filter p := List.filter_congr (fun a _ => hp a)
  rw [h1]
  have h2 : (rows.filter p).map (g ∘ upd) = (rows.filter p).map g :=
    List.map_congr_left (fun a _ => hg a)
  rw [h2]

theorem dedup_filter_comm {α : Type} [DecidableEq α] (p : α → Bool) (l : List α) :
    (l.filter p).dedup = l.dedup.filter p := by
  induction l with
  | nil => simp
  | cons a t ih =>
    by_cases hp : p a = true
    · rw [List.filter_cons_of_pos hp]
      by_cases hm : a ∈ t
      · rw [List.dedup_cons_of_mem (show a ∈ List.filter p t by
              rw [List.mem_filter]; exact ⟨hm, hp⟩),
            List.dedup_cons_of_mem hm, ih]
      · rw [List.dedup_cons_of_not_mem (show a ∉ List.filter p t by
              rw [List.mem_filter]; exact fun hc => hm hc.1),
            List.dedup_cons_of_not_mem hm, List.filter_cons_of_pos hp, ih]
    · rw [List.filter_cons_of_neg (by simpa using hp)]
      by_cases hm : a ∈ t
      · rw [List.dedup_cons_of_mem hm, ih]
      · rw [List.dedup_cons_of_not_mem hm, List.filter_cons_of_neg (by simpa using hp), ih]

/-! ### Claim theorems -/

/-- Claim C2 (confirmed): with every dimension at "All" (and the free-text
search empty where one exists), the filtered subset equals the full input
collection element for element — for the Fleet Management view, the Job Card
view, and the Dashboard's `filterByBUAndDate` — including rows with no
resolvable date, which are never consulted on the early-accept path. -/
theorem allAll_filter_is_identity :
    ∀ rows : List Row,
      fmFilteredData rows { month := "All", year := "All", bu := "All" } = rows ∧
      jcFilteredData rows { month := "All", year := "All", bu := "All", cluster := "All" } "" = rows ∧
      rows.filter (filterByBUAndDate { month := "All", year := "All", bu := "All" }) = rows := by
  intro rows
  refine ⟨?_, ?_, ?_⟩ <;> exact List.filter_eq_self.mpr (fun a _ => rfl)

/-- Claim C5 (confirmed): the Dashboard's job-card cost satisfies
`cost + profit = revenue` identically, and neither it nor its inputs ever
read a direct cost-like `Expense` column — overwriting `Expense` in every row
leaves the job-card cost unchanged. -/
theorem jobCardCost_identity :
    ∀ (rows : List Row) (f : SharedF) (e : Value),
      dashJobCardCost rows f + dashJobCardProfit rows f = dashJobCardRevenue rows f ∧
      dashJobCardCost (rows.map (setField "Expense" e)) f = dashJobCardCost rows f := by
  intro rows f e
  constructor
  · unfold dashJobCardCost
    ring
  · unfold dashJobCardCost dashJobCardRevenue dashJobCardProfit
    rw [sumBy_filter_map_invariant rows (setField "Expense" e) (filterJobCardByBUAndDate f)
          (fun i => qOf (jsOr (i "Total amount with Service Charge")
            (jsOr (i "TOTAL AMOUNT WITH SERVICE CHARGE") (Value.num 0))))
          (fun r => rfl) (fun r => rfl),
        sumBy_filter_map_invariant rows (setField "Expense" e) (filterJobCardByBUAndDate f)
          (fun i => qOf (jsOr (i "Profit") (Value.num 0)))
          (fun r => rfl) (fun r => rfl)]

/-- Claim C1 (amended): each dropdown's computed option set depends only on
the sibling dimensions, for the Job Card and Internal Fleets views; in the
Driver & Operator view this holds for the option sets as computed, before the
view re-appends its own current selection when absent (the appending step —
refuted separately — is the only dependence on the dimension's own value). -/
theorem options_independent_of_own_dimension :
    ∀ (rows : List Row) (sap search1 search2 : String) (f : DuoFilters) (g : JcFilters)
      (h : IfFilters) (v v2 : String),
      duoBusinessUnitsBase rows { f with bu := v } sap
        = duoBusinessUnitsBase rows { f with bu := v2 } sap ∧
      duoDesignationsBase rows { f with desig := v } sap
        = duoDesignationsBase rows { f with desig := v2 } sap ∧
      jcBusinessUnits rows { g with bu := v } search1
        = jcBusinessUnits rows { g with bu := v2 } search1 ∧
      jcClusters rows { g with cluster := v } search1
        = jcClusters rows { g with cluster := v2 } search1 ∧
      ifBusinessUnits rows { h with bu := v } search2
        = ifBusinessUnits rows { h with bu := v2 } search2 ∧
      ifFleetCategories rows { h with fcat := v } search2
        = ifFleetCategories rows { h with fcat := v2 } search2 := by
  intro rows sap search1 search2 f g h v v2
  exact ⟨rfl, rfl, rfl, rfl, rfl, rfl⟩

/-- The fleet-management percentage as claim C4 states it (Dashboard
variant): the ratio whenever a specific month and business unit are selected
and the denominator is non-empty/non-zero, and 0 otherwise. -/
def fmPctSpec (rows : List Row) (f : SharedF) : ℚ :=
  if f.month ≠ "All" ∧ f.bu ≠ "All" ∧ dashFmMonthTotal rows f ≠ 0 then
    dashFmRevenue rows f / dashFmMonthTotal rows f * 100
  else 0

/-- Claim C4's formula amended: the denominator guard is strict positivity,
as the code tests `totalMonthAmount > 0` (Dashboard variant). -/
def fmPctSpecPos (rows : List Row) (f : SharedF) : ℚ :=
  if f.month ≠ "All" ∧ f.bu ≠ "All" ∧ 0 < dashFmMonthTotal rows f then
    dashFmRevenue rows f / dashFmMonthTotal rows f * 100
  else 0

/-- The amended formula for the Fleet Management view's own percentage. -/
def fmViewPctSpecPos (rows : List Row) (f : FmFilters) : ℚ :=
  if f.month ≠ "All" ∧ f.bu ≠ "All" ∧ 0 < fmTotalMonthAmount rows f then
    fmTotalAmount rows f / fmTotalMonthAmount rows f * 100
  else 0

def rowFmNeg : Row := Row.ofList
  [("MONTH", Value.str "JAN"), ("YEAR", Value.str "2024"),
   ("Business Units", Value.str "A"), ("Splited Amount", Value.num (-50))]

/-- Claim C4, counterexample: with one JAN/2024 row of business unit "A" and
Splited Amount −50, and the filter (month JAN, business unit A), the
month-only denominator is −50 — neither empty nor zero — so the claim's
formula gives (−50)/(−50)·100 = 100, but the code's `totalMonthAmount > 0`
guard yields 0. -/
theorem fleet_pct_negative_denominator_cex :
    fleetManagementPercentage [rowFmNeg] { month := "JAN", year := "All", bu := "A" } = 0 ∧
    fmPctSpec [rowFmNeg] { month := "JAN", year := "All", bu := "A" } = 100 := by
  have hden : dashFmMonthTotal [rowFmNeg] { month := "JAN", year := "All", bu := "A" } = -50 := by
    show (-50 : ℚ) + 0 = -50
    norm_num
  have hrev : dashFmRevenue [rowFmNeg] { month := "JAN", year := "All", bu := "A" } = -50 := by
    show (-50 : ℚ) + 0 = -50
    norm_num
  constructor
  · unfold fleetManagementPercentage
    rw [if_pos ⟨by decide, by decide⟩]
    rw [if_neg (by rw [hden]; norm_num)]
  · unfold fmPctSpec
    rw [if_pos ⟨by decide, by decide, by rw [hden]; norm_num⟩, hrev, hden]
    norm_num

/-- Claim C4 (amended): both percentage computations equal the claimed
formula — numerator the month/year/business-unit-filtered revenue,
denominator the month/year-only revenue, ×100, only when a specific month
and business unit are selected — with the denominator guard amended from
"empty/zero" to "non-positive" (the code tests `> 0`). -/
theorem fleet_pct_matches_spec :
    (∀ (rows : List Row) (f : SharedF),
      fleetManagementPercentage rows f = fmPctSpecPos rows f) ∧
    (∀ (rows : List Row) (f : FmFilters),
      fmViewPercentage rows f = fmViewPctSpecPos rows f) := by
  constructor
  · intro rows f
    unfold fleetManagementPercentage fmPctSpecPos
    by_cases h1 : f.month ≠ "All" ∧ f.bu ≠ "All"
    · rw [if_pos h1]
      by_cases h2 : 0 < dashFmMonthTotal rows f
      · rw [if_pos h2, if_pos ⟨h1.1, h1.2, h2⟩]
      · rw [if_neg h2, if_neg (fun hc => h2 hc.2.2)]
    · rw [if_neg h1, if_neg (fun hc => h1 ⟨hc.1, hc.2.1⟩)]
  · intro rows f
    unfold fmViewPercentage fmViewPctSpecPos
    by_cases h1 : f.month ≠ "All"
    · rw [if_pos h1]
      by_cases h2 : f.bu ≠ "All" ∧ 0 < fmTotalMonthAmount rows f
      · rw [if_pos h2, if_pos ⟨h1, h2.1, h2.2⟩]
      · rw [if_neg h2, if_neg (fun hc => h2 ⟨hc.2.1, hc.2.2⟩)]
    · rw [if_neg h1, if_neg (fun hc => h1 hc.1)]

def rowExtNoInv : Row := Row.ofList
  [("REVENUE", Value.num 5), ("Business Units", Value.str "A")]

/-- Claim C9, counterexample: one filtered external row with no
`Invoice Number:` field yields a unique-invoice count of 1 — the `Set`
collects the shared `undefined` key — while the claim's blank-ignoring count
is 0. -/
theorem invoice_count_blank_cex :
    dashInvoiceCount [rowExtNoInv] { month := "All", year := "All", bu := "All" } = 1 ∧
    specInvoiceCount [rowExtNoInv] { month := "All", year := "All", bu := "All" } = 0 := by
  exact ⟨rfl, rfl⟩

/-- Claim C9 (amended): the code's unique-invoice count equals the claimed
blank-ignoring distinct count plus the number of distinct blank key values
present among the filtered rows — blank/undefined keys are counted as
ordinary distinct values, not ignored. -/
theorem invoice_count_decomposition :
    ∀ (rows : List Row) (f : SharedF),
      dashInvoiceCount rows f = specInvoiceCount rows f + blankInvoiceKinds rows f := by
  intro rows f
  unfold dashInvoiceCount specInvoiceCount blankInvoiceKinds
  rw [dedup_filter_comm]
  rw [List.length_eq_length_filter_add (l :=
        ((dashExternalFiltered rows f).map (fun i => i "Invoice Number:")).dedup)
      (fun v => !(isBlankKey v))]
  have hnn : (((dashExternalFiltered rows f).map (fun i => i "Invoice Number:")).dedup.filter
      (fun v => !(!(isBlankKey v)))) =
      (((dashExternalFiltered rows f).map (fun i => i "Invoice Number:")).dedup.filter
      isBlankKey) := by
    apply List.filter_congr
    intro a _
    simp
  rw [hnn]

/-- Claim C10 (confirmed): both derived averages are division-safe — on a
non-empty filtered subset the average equals the total divided by the record
count (with a provably non-zero divisor), and on an empty subset it is
exactly 0 — for the Job Card average amount and the Internal Fleets average
revenue. -/
theorem average_division_safe :
    ∀ (rows : List Row) (f : JcFilters) (search : String) (g : IfFilters)
      (search2 : String) (t : IType),
      (jcFilteredData rows f search = [] → jcAverageAmount rows f search = 0) ∧
      (jcFilteredData rows f search ≠ [] →
        jcAverageAmount rows f search
          = jcTotalAmount rows f search / (jcRecordCount rows f search : ℚ) ∧
        (jcRecordCount rows f search : ℚ) ≠ 0) ∧
      (ifFilteredData rows g search2 t = [] → ifAverageAmount rows g search2 t = 0) ∧
      (ifFilteredData rows g search2 t ≠ [] →
        ifAverageAmount rows g search2 t
          = ifTotalAmount rows g search2 t / (ifRecordCount rows g search2 t : ℚ) ∧
        (ifRecordCount rows g search2 t : ℚ) ≠ 0) := by
  intro rows f search g search2 t
  refine ⟨?_, ?_, ?_, ?_⟩
  · intro h
    have hc : jcRecordCount rows f search = 0 := by
      unfold jcRecordCount
      rw [h]
      rfl
    unfold jcAverageAmount
    rw [hc]
    norm_num
  · intro h
    have hc : 0 < jcRecordCount rows f search := List.length_pos.mpr h
    constructor
    · unfold jcAverageAmount
      rw [if_pos hc]
    · exact Nat.cast_ne_zero.mpr (Nat.pos_iff_ne_zero.mp hc)
  · intro h
    have hc : ifRecordCount rows g search2 t = 0 := by
      unfold ifRecordCount
      rw [h]
      rfl
    unfold ifAverageAmount
    rw [hc]
    norm_num
  · intro h
    have hc : 0 < ifRecordCount rows g search2 t := List.length_pos.mpr h
    constructor
    · unfold ifAverageAmount
      rw [if_pos hc]
    · exact Nat.cast_ne_zero.mpr (Nat.pos_iff_ne_zero.mp hc)

/-- Witness for `average_division_safe` at concrete inputs: a one-row Job
Card collection under the all-"All" filter (non-empty case) and an empty
Internal Fleets collection (empty case). -/
theorem average_division_safe_witness :
    jcAverageAmount [rowBUA] { month := "All", year := "All", bu := "All", cluster := "All" } ""
      = jcTotalAmount [rowBUA] { month := "All", year := "All", bu := "All", cluster := "All" } ""
        / (jcRecordCount [rowBUA] { month := "All", year := "All", bu := "All", cluster := "All" } "" : ℚ) ∧
    ifAverageAmount [] { month := "All", year := "All", bu := "All", fcat := "All" } "" IType.all = 0 :=
  ⟨((average_division_safe [rowBUA] { month := "All", year := "All", bu := "All", cluster := "All" }
        "" { month := "All", year := "All", bu := "All", fcat := "All" } "" IType.all).2.1
      (List.cons_ne_nil rowBUA [])).1,
   (average_division_safe [] { month := "All", year := "All", bu := "All", cluster := "All" }
        "" { month := "All", year := "All", bu := "All", fcat := "All" } "" IType.all).2.2.1 rfl⟩

/-! ### Stale-selection reset: helper lemmas -/

theorem jc_base_reset (rows : List Row) (f : JcFilters) (search : String) :
    jcBaseFiltered rows (jcResetStep rows f search) search = jcBaseFiltered rows f search := rfl

theorem mem_jcBusinessUnits_of_cluster_all {rows : List Row} {f : JcFilters} {search : String}
    {x : String} (hx : x ∈ jcBusinessUnits rows f search) (g : JcFilters)
    (hbase : jcBaseFiltered rows g search = jcBaseFiltered rows f search)
    (hc : g.cluster = "All") :
    x ∈ jcBusinessUnits rows g search := by
  unfold jcBusinessUnits at hx ⊢
  rw [mem_optionsOf] at hx ⊢
  rcases hx with h | h
  · exact Or.inl h
  · right
    rw [hbase]
    refine collectWith_mono _ ?_ h
    intro a ha
    rw [List.mem_filter] at ha ⊢
    refine ⟨ha.1, ?_⟩
    unfold jcClusterMatch
    rw [hc]
    rfl

theorem jcBusinessUnits_congr {rows : List Row} {search : String} (f g : JcFilters)
    (hbase : jcBaseFiltered rows g search = jcBaseFiltered rows f search)
    (hc : g.cluster = f.cluster) :
    jcBusinessUnits rows g search = jcBusinessUnits rows f search := by
  unfold jcBusinessUnits
  rw [hbase]
  have h2 : List.filter (jcClusterMatch g) (jcBaseFiltered rows f search)
      = List.filter (jcClusterMatch f) (jcBaseFiltered rows f search) := by
    apply List.filter_congr
    intro a _
    unfold jcClusterMatch
    rw [hc]
  rw [h2]

theorem mem_jcClusters_of_bu_all {rows : List Row} {f : JcFilters} {search : String}
    {x : String} (hx : x ∈ jcClusters rows f search) (g : JcFilters)
    (hbase : jcBaseFiltered rows g search = jcBaseFiltered rows f search)
    (hb : g.bu = "All") :
    x ∈ jcClusters rows g search := by
  unfold jcClusters at hx ⊢
  rw [mem_optionsOf] at hx ⊢
  rcases hx with h | h
  · exact Or.inl h
  · right
    rw [hbase]
    refine collectWith_mono _ ?_ h
    intro a ha
    rw [List.mem_filter] at ha ⊢
    refine ⟨ha.1, ?_⟩
    unfold jcBuMatch
    rw [hb]
    rfl

theorem jcClusters_congr {rows : List Row} {search : String} (f g : JcFilters)
    (hbase : jcBaseFiltered rows g search = jcBaseFiltered rows f search)
    (hb : g.bu = f.bu) :
    jcClusters rows g search = jcClusters rows f search := by
  unfold jcClusters
  rw [hbase]
  have h2 : List.filter (jcBuMatch g) (jcBaseFiltered rows f search)
      = List.filter (jcBuMatch f) (jcBaseFiltered rows f search) := by
    apply List.filter_congr
    intro a _
    unfold jcBuMatch
    rw [hb]
  rw [h2]

theorem jcResetStep_bu_resets (rows : List Row) (f : JcFilters) (search : String)
    (h1 : f.bu ≠ "All") (h2 : f.bu ∉ jcBusinessUnits rows f search) :
    (jcResetStep rows f search).bu = "All" := by
  show (if (f.bu != "All" && !((jcBusinessUnits rows f search).contains f.bu)) = true
        then "All" else f.bu) = "All"
  rw [if_pos]
  rw [Bool.and_eq_true]
  exact ⟨bne_iff_ne.mpr h1, by simp [h2]⟩

theorem jcResetStep_cluster_resets (rows : List Row) (f : JcFilters) (search : String)
    (h1 : f.cluster ≠ "All") (h2 : f.cluster ∉ jcClusters rows f search) :
    (jcResetStep rows f search).cluster = "All" := by
  show (if (f.cluster != "All" && !((jcClusters rows f search).contains f.cluster)) = true
        then "All" else f.cluster) = "All"
  rw [if_pos]
  rw [Bool.and_eq_true]
  exact ⟨bne_iff_ne.mpr h1, by simp [h2]⟩

theorem jcResetStep_bu_valid (rows : List Row) (f : JcFilters) (search : String)
    (h : (jcResetStep rows f search).bu ≠ "All") :
    (jcResetStep rows f search).bu ∈ jcBusinessUnits rows (jcResetStep rows f search) search := by
  by_cases hcb : (f.bu != "All" && !((jcBusinessUnits rows f search).contains f.bu)) = true
  · refine absurd ?_ h
    show (if (f.bu != "All" && !((jcBusinessUnits rows f search).contains f.bu)) = true
          then "All" else f.bu) = "All"
    rw [if_pos hcb]
  · have hbu : (jcResetStep rows f search).bu = f.bu := by
      show (if (f.bu != "All" && !((jcBusinessUnits rows f search).contains f.bu)) = true
            then "All" else f.bu) = f.bu
      rw [if_neg hcb]
    rw [hbu] at h ⊢
    have hne : (f.bu != "All") = true := bne_iff_ne.mpr h
    have hmem : f.bu ∈ jcBusinessUnits rows f search := by
      by_contra hnm
      apply hcb
      rw [Bool.and_eq_true]
      exact ⟨hne, by simp [hnm]⟩
    by_cases hcc : (f.cluster != "All" && !((jcClusters rows f search).contains f.cluster)) = true
    · refine mem_jcBusinessUnits_of_cluster_all hmem (jcResetStep rows f search) rfl ?_
      show (if (f.cluster != "All" && !((jcClusters rows f search).contains f.cluster)) = true
            then "All" else f.cluster) = "All"
      rw [if_pos hcc]
    · rw [jcBusinessUnits_congr f (jcResetStep rows f search) rfl ?_]
      · exact hmem
      · show (if (f.cluster != "All" && !((jcClusters rows f search).contains f.cluster)) = true
              then "All" else f.cluster) = f.cluster
        rw [if_neg hcc]

theorem jcResetStep_cluster_valid (rows : List Row) (f : JcFilters) (search : String)
    (h : (jcResetStep rows f search).cluster ≠ "All") :
    (jcResetStep rows f search).cluster ∈ jcClusters rows (jcResetStep rows f search) search := by
  by_cases hcc : (f.cluster != "All" && !((jcClusters rows f search).contains f.cluster)) = true
  · refine absurd ?_ h
    show (if (f.cluster != "All" && !((jcClusters rows f search).contains f.cluster)) = true
          then "All" else f.cluster) = "All"
    rw [if_pos hcc]
  · have hcl : (jcResetStep rows f search).cluster = f.cluster := by
      show (if (f.cluster != "All" && !((jcClusters rows f search).contains f.cluster)) = true
            then "All" else f.cluster) = f.cluster
      rw [if_neg hcc]
    rw [hcl] at h ⊢
    have hne : (f.cluster != "All") = true := bne_iff_ne.mpr h
    have hmem : f.cluster ∈ jcClusters rows f search := by
      by_contra hnm
      apply hcc
      rw [Bool.and_eq_true]
      exact ⟨hne, by simp [hnm]⟩
    by_cases hcb : (f.bu != "All" && !((jcBusinessUnits rows f search).contains f.bu)) = true
    · refine mem_jcClusters_of_bu_all hmem (jcResetStep rows f search) rfl ?_
      show (if (f.bu != "All" && !((jcBusinessUnits rows f search).contains f.bu)) = true
            then "All" else f.bu) = "All"
      rw [if_pos hcb]
    · rw [jcClusters_congr f (jcResetStep rows f search) rfl ?_]
      · exact hmem
      · show (if (f.bu != "All" && !((jcBusinessUnits rows f search).contains f.bu)) = true
              then "All" else f.bu) = f.bu
        rw [if_neg hcb]

theorem mem_ifBusinessUnits_of_fcat_all {rows : List Row} {f : IfFilters} {search : String}
    {x : String} (hx : x ∈ ifBusinessUnits rows f search) (g : IfFilters)
    (hbase : ifBaseFiltered rows g search = ifBaseFiltered rows f search)
    (hc : g.fcat = "All") :
    x ∈ ifBusinessUnits rows g search := by
  unfold ifBusinessUnits at hx ⊢
  rw [mem_optionsOf] at hx ⊢
  rcases hx with h | h
  · exact Or.inl h
  · right
    rw [hbase]
    refine collectWith_mono _ ?_ h
    intro a ha
    rw [List.mem_filter] at ha ⊢
    refine ⟨ha.1, ?_⟩
    unfold ifFcatMatch
    rw [hc]
    rfl

theorem ifBusinessUnits_congr {rows : List Row} {search : String} (f g : IfFilters)
    (hbase : ifBaseFiltered rows g search = ifBaseFiltered rows f search)
    (hc : g.fcat = f.fcat) :
    ifBusinessUnits rows g search = ifBusinessUnits rows f search := by
  unfold ifBusinessUnits
  rw [hbase]
  have h2 : List.filter (ifFcatMatch g) (ifBaseFiltered rows f search)
      = List.filter (ifFcatMatch f) (ifBaseFiltered rows f search) := by
    apply List.filter_congr
    intro a _
    unfold ifFcatMatch
    rw [hc]
  rw [h2]

theorem mem_ifFleetCategories_of_bu_all {rows : List Row} {f : IfFilters} {search : String}
    {x : String} (hx : x ∈ ifFleetCategories rows f search) (g : IfFilters)
    (hbase : ifBaseFiltered rows g search = ifBaseFiltered rows f search)
    (hb : g.bu = "All") :
    x ∈ ifFleetCategories rows g search := by
  unfold ifFleetCategories at hx ⊢
  rw [mem_optionsOf] at hx ⊢
  rcases hx with h | h
  · exact Or.inl h
  · right
    rw [hbase]
    refine collectWith_mono _ ?_ h
    intro a ha
    rw [List.mem_filter] at ha ⊢
    refine ⟨ha.1, ?_⟩
    unfold ifBuMatch
    rw [hb]
    rfl

theorem ifFleetCategories_congr {rows : List Row} {search : String} (f g : IfFilters)
    (hbase : ifBaseFiltered rows g search = ifBaseFiltered rows f search)
    (hb : g.bu = f.bu) :
    ifFleetCategories rows g search = ifFleetCategories rows f search := by
  unfold ifFleetCategories
  rw [hbase]
  have h2 : List.filter (ifBuMatch g) (ifBaseFiltered rows f search)
      = List.filter (ifBuMatch f) (ifBaseFiltered rows f search) := by
    apply List.filter_congr
    intro a _
    unfold ifBuMatch
    rw [hb]
  rw [h2]

theorem ifResetStep_bu_resets (rows : List Row) (f : IfFilters) (search : String)
    (h1 : f.bu ≠ "All") (h2 : f.bu ∉ ifBusinessUnits rows f search) :
    (ifResetStep rows f search).bu = "All" := by
  show (if (f.bu != "All" && !((ifBusinessUnits rows f search).contains f.bu)) = true
        then "All" else f.bu) = "All"
  rw [if_pos]
  rw [Bool.and_eq_true]
  exact ⟨bne_iff_ne.mpr h1, by simp [h2]⟩

theorem ifResetStep_fcat_resets (rows : List Row) (f : IfFilters) (search : String)
    (h1 : f.fcat ≠ "All") (h2 : f.fcat ∉ ifFleetCategories rows f search) :
    (ifResetStep rows f search).fcat = "All" := by
  show (if (f.fcat != "All" && !((ifFleetCategories rows f search).contains f.fcat)) = true
        then "All" else f.fcat) = "All"
  rw [if_pos]
  rw [Bool.and_eq_true]
  exact ⟨bne_iff_ne.mpr h1, by simp [h2]⟩

theorem ifResetStep_bu_valid (rows : List Row) (f : IfFilters) (search : String)
    (h : (ifResetStep rows f search).bu ≠ "All") :
    (ifResetStep rows f search).bu ∈ ifBusinessUnits rows (ifResetStep rows f search) search := by
  by_cases hcb : (f.bu != "All" && !((ifBusinessUnits rows f search).contains f.bu)) = true
  · refine absurd ?_ h
    show (if (f.bu != "All" && !((ifBusinessUnits rows f search).contains f.bu)) = true
          then "All" else f.bu) = "All"
    rw [if_pos hcb]
  · have hbu : (ifResetStep rows f search).bu = f.bu := by
      show (if (f.bu != "All" && !((ifBusinessUnits rows f search).contains f.bu)) = true
            then "All" else f.bu) = f.bu
      rw [if_neg hcb]
    rw [hbu] at h ⊢
    have hne : (f.bu != "All") = true := bne_iff_ne.mpr h
    have hmem : f.bu ∈ ifBusinessUnits rows f search := by
      by_contra hnm
      apply hcb
      rw [Bool.and_eq_true]
      exact ⟨hne, by simp [hnm]⟩
    by_cases hcc : (f.fcat != "All" && !((ifFleetCategories rows f search).contains f.fcat)) = true
    · refine mem_ifBusinessUnits_of_fcat_all hmem (ifResetStep rows f search) rfl ?_
      show (if (f.fcat != "All" && !((ifFleetCategories rows f search).contains f.fcat)) = true
            then "All" else f.fcat) = "All"
      rw [if_pos hcc]
    · rw [ifBusinessUnits_congr f (ifResetStep rows f search) rfl ?_]
      · exact hmem
      · show (if (f.fcat != "All" && !((ifFleetCategories rows f search).contains f.fcat)) = true
              then "All" else f.fcat) = f.fcat
        rw [if_neg hcc]

theorem ifResetStep_fcat_valid (rows : List Row) (f : IfFilters) (search : String)
    (h : (ifResetStep rows f search).fcat ≠ "All") :
    (ifResetStep rows f search).fcat ∈ ifFleetCategories rows (ifResetStep rows f search) search := by
  by_cases hcc : (f.fcat != "All" && !((ifFleetCategories rows f search).contains f.fcat)) = true
  · refine absurd ?_ h
    show (if (f.fcat != "All" && !((ifFleetCategories rows f search).contains f.fcat)) = true
          then "All" else f.fcat) = "All"
    rw [if_pos hcc]
  · have hfc : (ifResetStep rows f search).fcat = f.fcat := by
      show (if (f.fcat != "All" && !((ifFleetCategories rows f search).contains f.fcat)) = true
            then "All" else f.fcat) = f.fcat
      rw [if_neg hcc]
    rw [hfc] at h ⊢
    have hne : (f.fcat != "All") = true := bne_iff_ne.mpr h
    have hmem : f.fcat ∈ ifFleetCategories rows f search := by
      by_contra hnm
      apply hcc
      rw [Bool.and_eq_true]
      exact ⟨hne, by simp [hnm]⟩
    by_cases hcb : (f.bu != "All" && !((ifBusinessUnits rows f search).contains f.bu)) = true
    · refine mem_ifFleetCategories_of_bu_all hmem (ifResetStep rows f search) rfl ?_
      show (if (f.bu != "All" && !((ifBusinessUnits rows f search).contains f.bu)) = true
            then "All" else f.bu) = "All"
      rw [if_pos hcb]
    · rw [ifFleetCategories_congr f (ifResetStep rows f search) rfl ?_]
      · exact hmem
      · show (if (f.bu != "All" && !((ifBusinessUnits rows f search).contains f.bu)) = true
              then "All" else f.bu) = f.bu
        rw [if_neg hcb]

theorem fmResetStep_bu_resets (rows : List Row) (f : FmFilters)
    (h1 : f.bu ≠ "All") (h2 : f.bu ∉ fmDynamicBusinessUnits rows f) :
    (fmResetStep rows f).bu = "All" := by
  show (if (f.bu != "All" && !((fmDynamicBusinessUnits rows f).contains f.bu)) = true
        then "All" else f.bu) = "All"
  rw [if_pos]
  rw [Bool.and_eq_true]
  exact ⟨bne_iff_ne.mpr h1, by simp [h2]⟩

theorem fmResetStep_bu_valid (rows : List Row) (f : FmFilters)
    (h : (fmResetStep rows f).bu ≠ "All") :
    (fmResetStep rows f).bu ∈ fmDynamicBusinessUnits rows (fmResetStep rows f) := by
  have hopts : fmDynamicBusinessUnits rows (fmResetStep rows f)
      = fmDynamicBusinessUnits rows f := rfl
  rw [hopts]
  by_cases hcb : (f.bu != "All" && !((fmDynamicBusinessUnits rows f).contains f.bu)) = true
  · refine absurd ?_ h
    show (if (f.bu != "All" && !((fmDynamicBusinessUnits rows f).contains f.bu)) = true
          then "All" else f.bu) = "All"
    rw [if_pos hcb]
  · have hbu : (fmResetStep rows f).bu = f.bu := by
      show (if (f.bu != "All" && !((fmDynamicBusinessUnits rows f).contains f.bu)) = true
            then "All" else f.bu) = f.bu
      rw [if_neg hcb]
    rw [hbu] at h ⊢
    have hne : (f.bu != "All") = true := bne_iff_ne.mpr h
    by_contra hnm
    apply hcb
    rw [Bool.and_eq_true]
    exact ⟨hne, by simp [hnm]⟩

/-- Claim C6 (confirmed): in the Fleet Management, Job Card and Internal
Fleets views, whenever a dimension's selected value (not "All") is absent
from its freshly computed option set, the reset effect sets that dimension to
"All"; and after the reset step has been applied, every dimension's retained
non-"All" selection belongs to its freshly recomputed option set — no stale
selection survives a settled recomputation. -/
theorem stale_selection_reset :
    ∀ (rows : List Row) (f : JcFilters) (g : IfFilters) (e : FmFilters)
      (search1 search2 : String),
      (f.bu ≠ "All" → f.bu ∉ jcBusinessUnits rows f search1 →
        (jcResetStep rows f search1).bu = "All") ∧
      (f.cluster ≠ "All" → f.cluster ∉ jcClusters rows f search1 →
        (jcResetStep rows f search1).cluster = "All") ∧
      (g.bu ≠ "All" → g.bu ∉ ifBusinessUnits rows g search2 →
        (ifResetStep rows g search2).bu = "All") ∧
      (g.fcat ≠ "All" → g.fcat ∉ ifFleetCategories rows g search2 →
        (ifResetStep rows g search2).fcat = "All") ∧
      (e.bu ≠ "All" → e.bu ∉ fmDynamicBusinessUnits rows e →
        (fmResetStep rows e).bu = "All") ∧
      ((jcResetStep rows f search1).bu ≠ "All" →
        (jcResetStep rows f search1).bu ∈ jcBusinessUnits rows (jcResetStep rows f search1) search1) ∧
      ((jcResetStep rows f search1).cluster ≠ "All" →
        (jcResetStep rows f search1).cluster ∈ jcClusters rows (jcResetStep rows f search1) search1) ∧
      ((ifResetStep rows g search2).bu ≠ "All" →
        (ifResetStep rows g search2).bu ∈ ifBusinessUnits rows (ifResetStep rows g search2) search2) ∧
      ((ifResetStep rows g search2).fcat ≠ "All" →
        (ifResetStep rows g search2).fcat ∈ ifFleetCategories rows (ifResetStep rows g search2) search2) ∧
      ((fmResetStep rows e).bu ≠ "All" →
        (fmResetStep rows e).bu ∈ fmDynamicBusinessUnits rows (fmResetStep rows e)) := by
  intro rows f g e search1 search2
  exact ⟨jcResetStep_bu_resets rows f search1,
         jcResetStep_cluster_resets rows f search1,
         ifResetStep_bu_resets rows g search2,
         ifResetStep_fcat_resets rows g search2,
         fmResetStep_bu_resets rows e,
         jcResetStep_bu_valid rows f search1,
         jcResetStep_cluster_valid rows f search1,
         ifResetStep_bu_valid rows g search2,
         ifResetStep_fcat_valid rows g search2,
         fmResetStep_bu_valid rows e⟩

def rowJC1 : Row := Row.ofList [("Business Units", Value.str "A"), ("Cluster", Value.str "C1")]

/-- Witness for `stale_selection_reset` at a concrete input: over one Job
Card row with business unit "A", the stale selection "B" (absent from the
computed options ["All", "A"]) is reset to "All" by the next step. -/
theorem stale_selection_reset_witness :
    (jcResetStep [rowJC1] { month := "All", year := "All", bu := "B", cluster := "All" } "").bu
      = "All" :=
  (stale_selection_reset [rowJC1] { month := "All", year := "All", bu := "B", cluster := "All" }
      { month := "All", year := "All", bu := "All", fcat := "All" }
      { month := "All", year := "All", bu := "All" } "" "").1
    (by decide) (by decide)

/-! ### Worker-side Internal Fleets ingestion (src/unnamed/part_000,
`workerScript`)

A raw parsed row is an ordered association list of (column header, value)
pairs — ordered because the key-trimming normalization's last-writer-wins
behaviour depends on JS object key order.  Properties within one JS object
are unique, so exact-duplicate keys do not occur in a raw row. -/

abbrev RawRow := List (String × Value)

/-- JS property access `row[k]` on a raw row. -/
def lookupRaw (row : RawRow) (k : String) : Value :=
  match row.find? (fun p => p.1 == k) with
  | some p => p.2
  | none => Value.undef

/-- The per-cell normalization: a valid `Date` is rebuilt via
`new Date(Date.UTC(getFullYear(), getMonth(), getDate()))` (the model keeps
one calendar date per `Date` value, so only `Date.UTC`'s year mapping is
observable); everything else passes through unchanged. -/
def normalizeCell (v : Value) : Value :=
  match v with
  | Value.dateV y m d => Value.dateV (utcYearAdjust y) m d
  | v2 => v2

/-- The key-trimming normalization of one raw row: for each canonical column
`k`, the value of the last raw entry whose trimmed key equals `k` wins
(`cleanedRow[cleanedKey] = value` inside a `for … in` loop). -/
def cleanRow (row : RawRow) : Row :=
  fun k => row.foldl (fun acc p => if myTrim p.1 == k then normalizeCell p.2 else acc) Value.undef

/-- The Internal Fleets pre-normalization drop:
`row['Reg No:'] && String(row['Reg No:']).trim() !== ''`. -/
def regKeep (row : RawRow) : Bool :=
  truthy (lookupRaw row "Reg No:") && myTrim (jsString (lookupRaw row "Reg No:")) != ""

/-- The worker's Internal Fleets pipeline: drop blank-registration rows, then
normalize each surviving raw row. -/
def internalFleetsIngest (raw : List RawRow) : List Row :=
  (raw.filter regKeep).map cleanRow

/-- A blank registration value: missing/undefined or an empty/whitespace-only
string. -/
def blankReg (v : Value) : Bool :=
  match v with
  | Value.undef => true
  | Value.str s => myTrim s == ""
  | _ => false

def rawDupReg : RawRow := [("Reg No:", Value.str "ABC"), (" Reg No: ", Value.str "")]

/-- Claim C8, counterexample: a raw row carrying both a populated `"Reg No:"`
column and a whitespace-variant duplicate `" Reg No: "` column holding `""`
survives the drop (the exact-key lookup sees "ABC") but normalizes to a row
whose `"Reg No:"` value is the blank string — the trimmed duplicate key wins
last — so the normalized collection does contain a blank-registration row. -/
theorem ingest_duplicate_key_blank_cex :
    (internalFleetsIngest [rawDupReg]).map (fun r => r "Reg No:") = [Value.str ""] ∧
    (internalFleetsIngest [rawDupReg]).map (fun r => blankReg (r "Reg No:")) = [true] := by
  exact ⟨rfl, rfl⟩

theorem cleanFold_no_match (k : String) (row : RawRow) (acc : Value)
    (h : row.countP (fun p => myTrim p.1 == k) = 0) :
    row.foldl (fun acc2 p => if myTrim p.1 == k then normalizeCell p.2 else acc2) acc = acc := by
  induction row generalizing acc with
  | nil => rfl
  | cons a t ih =>
    rw [List.countP_cons] at h
    have ht : t.countP (fun p => myTrim p.1 == k) = 0 := Nat.eq_zero_of_add_eq_zero_right h
    have ha : ¬ (myTrim a.1 == k) = true := by
      intro hc
      rw [if_pos hc] at h
      omega
    rw [List.foldl_cons, if_neg ha]
    exact ih acc ht

theorem cleanFold_unique (k : String) (row : RawRow) (p0 : String × Value)
    (hmem : p0 ∈ row) (hk : (myTrim p0.1 == k) = true)
    (hcount : row.countP (fun p => myTrim p.1 == k) ≤ 1) :
    row.foldl (fun acc2 p => if myTrim p.1 == k then normalizeCell p.2 else acc2) Value.undef
      = normalizeCell p0.2 := by
  induction row with
  | nil => cases hmem
  | cons a t ih =>
    rw [List.countP_cons] at hcount
    by_cases ha : (myTrim a.1 == k) = true
    · rw [if_pos ha] at hcount
      have ht : t.countP (fun p => myTrim p.1 == k) = 0 := by omega
      have hp0 : p0 = a := by
        rcases List.mem_cons.mp hmem with h | h
        · exact h
        · exfalso
          have hpos : 0 < t.countP (fun p => myTrim p.1 == k) :=
            List.countP_pos_iff.mpr ⟨p0, h, hk⟩
          omega
      subst hp0
      rw [List.foldl_cons, if_pos ha]
      exact cleanFold_no_match k t (normalizeCell p0.2) ht
    · have hp0t : p0 ∈ t := by
        rcases List.mem_cons.mp hmem with h | h
        · exact absurd (h ▸ hk) ha
        · exact h
      rw [if_neg ha] at hcount
      rw [List.foldl_cons, if_neg ha]
      exact ih hp0t (by omega)

/-- Claim C8 (amended): over every parsed workbook in which no raw Internal
Fleets row carries two distinct header keys that both trim to `"Reg No:"`
(one JS object cannot repeat an identical key; only whitespace-variant
duplicates are excluded), every row of the normalized Internal Fleets
collection has a non-blank `"Reg No:"` value — blank-registration raw rows
are dropped before normalization. -/
theorem ingest_no_blank_regno :
    ∀ raw : List RawRow,
      (∀ row ∈ raw, row.countP (fun p => myTrim p.1 == "Reg No:") ≤ 1) →
      ∀ r ∈ internalFleetsIngest raw, blankReg (r "Reg No:") = false := by
  intro raw hdup r hr
  unfold internalFleetsIngest at hr
  rw [List.mem_map] at hr
  obtain ⟨row, hrow, hclean⟩ := hr
  rw [List.mem_filter] at hrow
  obtain ⟨hmemraw, hkeep⟩ := hrow
  unfold regKeep at hkeep
  rw [Bool.and_eq_true] at hkeep
  obtain ⟨htr, hblank⟩ := hkeep
  cases hfind : row.find? (fun p => p.1 == "Reg No:") with
  | none =>
    exfalso
    unfold lookupRaw at htr
    rw [hfind] at htr
    simp [truthy] at htr
  | some p0 =>
    have hp0beq := List.find?_some hfind
    have hp01 : p0.1 = "Reg No:" := beq_iff_eq.mp hp0beq
    have hv : lookupRaw row "Reg No:" = p0.2 := by
      unfold lookupRaw
      rw [hfind]
    rw [hv] at htr hblank
    have hmem0 : p0 ∈ row := List.mem_of_find?_eq_some hfind
    have hkk : (myTrim p0.1 == "Reg No:") = true := by
      rw [hp01]
      decide
    have hclean2 : cleanRow row "Reg No:" = normalizeCell p0.2 :=
      cleanFold_unique "Reg No:" row p0 hmem0 hkk (hdup row hmemraw)
    rw [← hclean, hclean2]
    cases hp2 : p0.2 with
    | str s =>
      rw [hp2] at hblank
      have hs : myTrim s ≠ "" := by
        have hb2 : (myTrim (jsString (Value.str s)) != "") = true := hblank
        exact bne_iff_ne.mp hb2
      show (myTrim s == "") = false
      simpa using hs
    | num q => rfl
    | dateV y m d => rfl
    | invalidDate => rfl
    | undef =>
      rw [hp2] at htr
      simp [truthy] at htr

def rawGoodReg : RawRow := [("Reg No:", Value.str "V1")]

/-- Witness for `ingest_no_blank_regno`: a one-row workbook with registration
"V1" and no duplicate headers; its normalized row has a non-blank
registration. -/
theorem ingest_no_blank_regno_witness :
    blankReg ((cleanRow rawGoodReg) "Reg No:") = false :=
  ingest_no_blank_regno [rawGoodReg] (by decide) (cleanRow rawGoodReg)
    (List.mem_singleton.mpr rfl)
